import Mathlib

/-!
Verification of the Weathermate data-validation and forecast-aggregation core.

This file gives a shallow embedding of `src/forecast_processor.py`,
`src/validation.py` and the `AQILevel` enumeration of `src/config.py`,
and proves properties of the embedded definitions.

Modelling conventions:
* Parsed JSON documents are values of the inductive type `JValue`
  (Python `None`/`bool`/`int`/`float`/`str`/`list`/`dict`).  Python `float`
  values are modelled as rationals `ℚ` (the source never meets NaN or
  infinities except the `float('inf')` min/max sentinels, which are modelled
  by `Option ℚ` with `none` as the uninitialized sentinel).
* Python strings are modelled as `List Char` (`Str` below) so that every
  string operation reduces inside the kernel.
* Python dicts are modelled as association lists `List (Str × JValue)` read
  through `alookup` (first match; all concrete documents use distinct keys,
  matching dict semantics).
* Fallible Python code is modelled in `Except PyError`; the constructor of
  `PyError` corresponds to the Python exception class, and the payload is
  the message text.  Message interpolation of `float`, `list` and `dict`
  values is approximated by `JValue.valStr` (the claims never depend on the
  text rendered for those three cases); `int` and `str` interpolation is
  exact.
* Python's `isinstance(x, (int, float))` accepts `bool` values (a Python
  `bool` is an `int`); `JValue.asNum` reproduces this.  The single
  `isinstance(x, int)` check (AQI) is modelled as accepting exactly `int`;
  the `bool` corner is not exercised by any claim.
* Python's stable `sorted(..., key=...)` is modelled by the structurally
  recursive stable sort `List.insertionSort` on the same key order.
-/

/-- Python strings, modelled as lists of characters. -/
abbrev Str := List Char

/-- Python exceptions raised by the embedded code, with their message text. -/
inductive PyError where
  | keyError (msg : Str)
  | indexError (msg : Str)
  | typeError (msg : Str)
  | valueError (msg : Str)
  | attributeError (msg : Str)
deriving DecidableEq

/-- Parsed JSON documents (Python `None`, `bool`, `int`, `float`, `str`, `list`, `dict`). -/
inductive JValue where
  | null
  | bool (b : Bool)
  | int (n : Int)
  | float (q : ℚ)
  | str (s : Str)
  | arr (xs : List JValue)
  | obj (fields : List (Str × JValue))

/-- Python `type(v).__name__`. -/
def JValue.typeName : JValue → Str
  | .null => ("NoneType").data
  | .bool _ => ("bool").data
  | .int _ => ("int").data
  | .float _ => ("float").data
  | .str _ => ("str").data
  | .arr _ => ("list").data
  | .obj _ => ("dict").data

/-- Python `str(v)` as used in f-string interpolation of error messages.
Exact for `int`, `bool`, `None` and `str`; approximate for `float`, `list`
and `dict` (no asserted message interpolates those). -/
def JValue.valStr : JValue → Str
  | .null => ("None").data
  | .bool b => if b then ("True").data else ("False").data
  | .int n => (toString n).data
  | .float q => (toString q.num).data ++ ("/").data ++ (toString q.den).data
  | .str s => s
  | .arr _ => ("<list>").data
  | .obj _ => ("<dict>").data

/-- Lookup in a Python dict modelled as an association list (first match). -/
def alookup {β : Type} : List (Str × β) → Str → Option β
  | [], _ => none
  | (k, v) :: rest, key => if k = key then some v else alookup rest key

/-- Python `d.get(key, default)`: returns the entry or the default on a dict,
raises `AttributeError` on any non-dict receiver. -/
def pyGet (v : JValue) (key : Str) (dflt : JValue) : Except PyError JValue :=
  match v with
  | .obj fields => .ok ((alookup fields key).getD dflt)
  | other =>
    .error (.attributeError
      (("'").data ++ other.typeName ++ ("' object has no attribute 'get'").data))

/-- Python subscript `v[0]`: element on a non-empty list, first character on a
non-empty string, `IndexError` when empty, `KeyError` on a (string-keyed)
dict, `TypeError` on non-subscriptable values. -/
def pyIndex0 : JValue → Except PyError JValue
  | .arr [] => .error (.indexError ("list index out of range").data)
  | .arr (x :: _) => .ok x
  | .str [] => .error (.indexError ("string index out of range").data)
  | .str (c :: _) => .ok (.str [c])
  | .obj _ => .error (.keyError ("0").data)
  | other =>
    .error (.typeError
      (("'").data ++ other.typeName ++ ("' object is not subscriptable").data))

/-- Numeric view of a value, mirroring `isinstance(v, (int, float))` (which in
Python also accepts `bool`, since `bool` is a subclass of `int`) together
with the numeric value used in comparisons. -/
def JValue.asNum : JValue → Option ℚ
  | .int n => some (n : ℚ)
  | .float q => some q
  | .bool b => some (if b then 1 else 0)
  | _ => none

/-- Access to a string method (`split`, `title`): the string on a `str`
receiver, `AttributeError` otherwise. -/
def JValue.asStr (v : JValue) (method : Str) : Except PyError Str :=
  match v with
  | .str s => .ok s
  | other =>
    .error (.attributeError
      (("'").data ++ other.typeName ++ ("' object has no attribute '").data
        ++ method ++ ("'").data))

/-- Python `s.split(" ")` with the explicit single-space separator:
`""` yields `[""]`, consecutive separators yield empty fields. -/
def splitSpace : Str → List Str
  | [] => [[]]
  | c :: rest =>
    if c = ' ' then [] :: splitSpace rest
    else
      match splitSpace rest with
      | [] => [[c]]
      | h :: t => (c :: h) :: t

/-- One step of Python `str.title()`: a letter is uppercased when the previous
character is not a letter and lowercased otherwise. -/
def pyTitleAux : Bool → Str → Str
  | _, [] => []
  | prevAlpha, c :: rest =>
    (if c.isAlpha then (if prevAlpha then c.toLower else c.toUpper) else c)
      :: pyTitleAux c.isAlpha rest

/-- Python `s.title()` (ASCII; all condition strings in scope are ASCII). -/
def pyTitle (s : Str) : Str := pyTitleAux false s

/-- One hourly record of a `ForecastDay`, the dict appended by `add_hourly`.
The temperature is stored as a number (a non-numeric temperature makes the
whole aggregation raise `TypeError` before any result is observable, see
`extract_entry`); humidity and wind are stored unexamined. -/
structure HourlyEntry where
  time : Str
  temp : ℚ
  condition : Str
  humidity : JValue
  wind : JValue

/-- The `ForecastDay` class of `src/forecast_processor.py`.  `min_temp` and
`max_temp` start at the sentinels `float('inf')` / `float('-inf')`,
modelled as `none`. -/
structure ForecastDay where
  date : Str
  hourly_data : List HourlyEntry
  min_temp : Option ℚ
  max_temp : Option ℚ
  conditions : List Str

/-- The `ForecastDay.__init__` constructor. -/
def ForecastDay.init (date : Str) : ForecastDay :=
  { date := date, hourly_data := [], min_temp := none, max_temp := none,
    conditions := [] }

/-- The `ForecastDay.add_hourly` method: append the hourly record, update the
running min/max (`min(inf, t) = t` on the sentinel), and append the
condition only when not already present. -/
def ForecastDay.add_hourly (d : ForecastDay) (time : Str) (temp : ℚ)
    (condition : Str) (humidity : JValue) (wind : JValue) : ForecastDay :=
  { d with
    hourly_data := d.hourly_data ++
      [{ time := time, temp := temp, condition := condition,
         humidity := humidity, wind := wind }],
    min_temp := some (match d.min_temp with | none => temp | some m => min m temp),
    max_temp := some (match d.max_temp with | none => temp | some m => max m temp),
    conditions :=
      if condition ∈ d.conditions then d.conditions
      else d.conditions ++ [condition] }

/-- The fields the loop body of `process_forecast_data` extracts from one raw
entry before touching the day map. -/
structure ExtractedEntry where
  date : Str
  time : Str
  temp : ℚ
  condition : Str
  humidity : JValue
  wind_speed : JValue

/-- The extraction part of the loop body of `process_forecast_data`, up to and
including the argument evaluation of the `add_hourly` call:

* `dt_txt = entry.get("dt_txt", "")`, split on a space into date and time
  (`IndexError` when there is no space), time truncated to `HH:MM`;
* `main`/`weather[0]`/`wind` sub-objects with their defaults;
* `temp`, `condition`, `humidity`, `wind_speed` with their defaults;
* `condition.title()` (`AttributeError` on a non-string condition);
* the numeric check Python performs inside `min(self.min_temp, temp)`
  (`TypeError` on a non-numeric temperature).  In the source the `TypeError`
  fires inside `add_hourly` after the record was appended, but the exception
  is not caught, so the whole call raises and the difference is
  unobservable; the model checks before constructing the record. -/
def extract_entry (entry : JValue) : Except PyError ExtractedEntry := do
  let dt_val ← pyGet entry (("dt_txt").data) (.str [])
  let dt_txt ← dt_val.asStr (("split").data)
  let parts := splitSpace dt_txt
  let date := parts.headD []
  let time0 ← match parts with
    | _ :: t :: _ => Except.ok t
    | _ => Except.error (.indexError ("list index out of range").data)
  let time := time0.take 5
  let mainv ← pyGet entry (("main").data) (.obj [])
  let weatherArr ← pyGet entry (("weather").data) (.arr [.obj []])
  let weather ← pyIndex0 weatherArr
  let windv ← pyGet entry (("wind").data) (.obj [])
  let tempv ← pyGet mainv (("temp").data) (.int 0)
  let condv ← pyGet weather (("description").data) (.str ("Unknown").data)
  let humidity ← pyGet mainv (("humidity").data) (.int 0)
  let wind_speed ← pyGet windv (("speed").data) (.int 0)
  let cond ← condv.asStr (("title").data)
  let temp ← match tempv.asNum with
    | some q => Except.ok q
    | none =>
      Except.error (.typeError
        (("'<' not supported between instances of '").data ++ tempv.typeName
          ++ ("' and 'float'").data))
  Except.ok { date := date, time := time, temp := temp,
              condition := pyTitle cond, humidity := humidity,
              wind_speed := wind_speed }

/-- The exception classes caught by the `except (KeyError, IndexError,
ValueError)` clause of `process_forecast_data`. -/
def PyError.caught_by_skip : PyError → Bool
  | .keyError _ => true
  | .indexError _ => true
  | .valueError _ => true
  | _ => false

/-- Whether `process_forecast_data` skips a raw entry: its extraction raises
one of the caught exception classes. -/
def entry_skipped (e : JValue) : Bool :=
  match extract_entry e with
  | .error err => err.caught_by_skip
  | .ok _ => false

/-- In-place update of the day stored under a key of the day map. -/
def updateDay : List (Str × ForecastDay) → Str → (ForecastDay → ForecastDay)
    → List (Str × ForecastDay)
  | [], _, _ => []
  | (k, d) :: rest, key, f =>
    if k = key then (k, f d) :: rest else (k, d) :: updateDay rest key f

/-- The day-map part of the loop body: create the `ForecastDay` on first
encounter of the date, then `add_hourly` the extracted fields. -/
def addEntryToDays (days : List (Str × ForecastDay)) (e : ExtractedEntry) :
    List (Str × ForecastDay) :=
  let days1 :=
    if (alookup days e.date).isSome then days
    else days ++ [(e.date, ForecastDay.init e.date)]
  updateDay days1 e.date
    (fun d => d.add_hourly e.time e.temp e.condition e.humidity e.wind_speed)

/-- The entry loop of `process_forecast_data` over the insertion-ordered day
map: skipped entries leave the map unchanged, uncaught exceptions abort. -/
def processEntries : List JValue → List (Str × ForecastDay)
    → Except PyError (List (Str × ForecastDay))
  | [], days => .ok days
  | e :: rest, days =>
    match extract_entry e with
    | .ok ex => processEntries rest (addEntryToDays days ex)
    | .error err =>
      if err.caught_by_skip then processEntries rest days else .error err

/-- The function `process_forecast_data(forecast_list, units)`: run the entry
loop, then return the day values sorted by ascending date string (`sorted`
with `key=lambda x: x.date`, modelled by the stable `insertionSort` on the
same key order).  The `units` parameter is unused, as in the source. -/
def process_forecast_data (forecast_list : List JValue) (units : Str) :
    Except PyError (List ForecastDay) :=
  (processEntries forecast_list []).map
    (fun days =>
      List.insertionSort (fun a b => a.date ≤ b.date) (days.map Prod.snd))

/-- The helper `validate_json_response`: a non-dict document raises
`ValueError`. -/
def validate_json_response (response_data : JValue) : Except PyError Unit :=
  match response_data with
  | .obj _ => .ok ()
  | v =>
    .error (.valueError (("Expected dict response, got ").data ++ v.typeName))

/-- Python `f"{key_path}.{key}" if key_path else key`. -/
def fullKeyPath (key_path key : Str) : Str :=
  if key_path = [] then key else key_path ++ ('.') :: key

/-- The pattern `validate_key_exists(data, key, key_path); data[key]` used by
every validator: the entry, or `KeyError` with the dotted path. -/
def get_required_key (data : List (Str × JValue)) (key : Str)
    (key_path : Str) : Except PyError JValue :=
  match alookup data key with
  | some v => .ok v
  | none =>
    .error (.keyError (("Missing required key: '").data
      ++ fullKeyPath key_path key ++ ("'").data))

/-- The repeated pattern `validate_key_exists(...); if not isinstance(value,
(int, float)): raise ValueError(...)` of the validators. -/
def check_number_value (data : List (Str × JValue)) (key : Str)
    (key_path : Str) : Except PyError Unit := do
  let value ← get_required_key data key key_path
  match value.asNum with
  | some _ => pure ()
  | none =>
    throw (.valueError (("Expected '").data ++ fullKeyPath key_path key
      ++ ("' to be number, got ").data ++ value.typeName ++ (": ").data
      ++ value.valStr))

/-- The repeated pattern `validate_key_exists(...); if not isinstance(value,
str): raise ValueError(...)` of the validators. -/
def check_string_value (data : List (Str × JValue)) (key : Str)
    (key_path : Str) : Except PyError Unit := do
  let value ← get_required_key data key key_path
  match value with
  | .str _ => pure ()
  | _ =>
    throw (.valueError (("Expected '").data ++ fullKeyPath key_path key
      ++ ("' to be string, got ").data ++ value.typeName ++ (": ").data
      ++ value.valStr))

/-- The loop body of the `for key in ["lat", "lon"]` loop of
`validate_coordinates_response`: existence, number check, then the range
check selected by the key. -/
def check_coord_value (coord : List (Str × JValue)) (key : Str) :
    Except PyError Unit := do
  let value ← get_required_key coord key (("coord").data)
  match value.asNum with
  | none =>
    throw (.valueError (("Expected 'coord.").data ++ key
      ++ ("' to be number, got ").data ++ value.typeName ++ (": ").data
      ++ value.valStr))
  | some q =>
    if key = ("lat").data ∧ ¬(-90 ≤ q ∧ q ≤ 90) then
      throw (.valueError (("Latitude out of range: ").data ++ value.valStr))
    else if key = ("lon").data ∧ ¬(-180 ≤ q ∧ q ≤ 180) then
      throw (.valueError (("Longitude out of range: ").data ++ value.valStr))
    else pure ()

/-- The function `validate_coordinates_response(data)`: returns the validated
`coord` sub-dictionary. -/
def validate_coordinates_response (data : JValue) : Except PyError JValue := do
  match data with
  | .obj fields =>
    let coordv ← get_required_key fields (("coord").data) []
    match coordv with
    | .obj coord =>
      check_coord_value coord (("lat").data)
      check_coord_value coord (("lon").data)
      pure (.obj coord)
    | v =>
      throw (.typeError (("Expected 'coord' to be dict, got ").data
        ++ v.typeName))
  | v =>
    throw (.valueError (("Expected dict response, got ").data ++ v.typeName))

/-- The function `validate_current_weather_response(data)`: checks
`main.temp`, `main.humidity`, the non-empty `weather` array with string
`description`/`icon` on its first element, and `wind.speed`; returns the
whole document. -/
def validate_current_weather_response (data : JValue) :
    Except PyError JValue := do
  match data with
  | .obj fields =>
    let mainv ← get_required_key fields (("main").data) []
    match mainv with
    | .obj mainf =>
      check_number_value mainf (("temp").data) (("main").data)
      check_number_value mainf (("humidity").data) (("main").data)
      let weatherv ← get_required_key fields (("weather").data) []
      match weatherv with
      | .arr ws =>
        match ws with
        | [] => throw (.valueError ("'weather' array is empty").data)
        | w0 :: _ =>
          match w0 with
          | .obj w0f =>
            check_string_value w0f (("description").data) (("weather[0]").data)
            check_string_value w0f (("icon").data) (("weather[0]").data)
            let windv ← get_required_key fields (("wind").data) []
            match windv with
            | .obj windf =>
              check_number_value windf (("speed").data) (("wind").data)
              pure data
            | v =>
              throw (.typeError (("Expected 'wind' to be dict, got ").data
                ++ v.typeName))
          | v =>
            throw (.typeError (("Expected 'weather[0]' to be dict, got ").data
              ++ v.typeName))
      | v =>
        throw (.typeError (("Expected 'weather' to be list, got ").data
          ++ v.typeName))
    | v =>
      throw (.typeError (("Expected 'main' to be dict, got ").data
        ++ v.typeName))
  | v =>
    throw (.valueError (("Expected dict response, got ").data ++ v.typeName))

/-- The `AQILevel` enumeration of `src/config.py`. -/
inductive AQILevel where
  | GOOD
  | FAIR
  | MODERATE
  | POOR
  | VERY_POOR
deriving DecidableEq

/-- The numeric AQI value of a level (`AQILevel.value_num`). -/
def AQILevel.value_num : AQILevel → Int
  | .GOOD => 1
  | .FAIR => 2
  | .MODERATE => 3
  | .POOR => 4
  | .VERY_POOR => 5

/-- The description of a level (`AQILevel.description`). -/
def AQILevel.description : AQILevel → Str
  | .GOOD => ("Good").data
  | .FAIR => ("Fair").data
  | .MODERATE => ("Moderate").data
  | .POOR => ("Poor").data
  | .VERY_POOR => ("Very Poor").data

/-- Iteration order of `for level in cls` over the enumeration. -/
def AQILevel.members : List AQILevel :=
  [.GOOD, .FAIR, .MODERATE, .POOR, .VERY_POOR]

/-- The classmethod `AQILevel.from_value(value)`: the first level whose
numeric value matches, else `ValueError`. -/
def AQILevel.from_value (value : Int) : Except PyError AQILevel :=
  match AQILevel.members.find? (fun level => level.value_num == value) with
  | some level => .ok level
  | none =>
    .error (.valueError (("Invalid AQI value: ").data ++ (toString value).data
      ++ (". Must be 1-5.").data))

/-- The function `validate_air_quality_response(data)`: checks the non-empty
`list` array, `list[0].main.aqi` an integer accepted by
`AQILevel.from_value`; returns the whole document.  (Python's
`isinstance(aqi, int)` also accepts `bool`; that corner is modelled as a
non-integer and is not exercised by any claim.) -/
def validate_air_quality_response (data : JValue) : Except PyError JValue := do
  match data with
  | .obj fields =>
    let listv ← get_required_key fields (("list").data) []
    match listv with
    | .arr items =>
      match items with
      | [] => throw (.valueError ("'list' array is empty").data)
      | item0 :: _ =>
        match item0 with
        | .obj item0f =>
          let mainv ← get_required_key item0f (("main").data) (("list[0]").data)
          match mainv with
          | .obj mainf =>
            let aqiv ← get_required_key mainf (("aqi").data)
              (("list[0].main").data)
            match aqiv with
            | .int aqi_value =>
              match AQILevel.from_value aqi_value with
              | .ok _ => pure data
              | .error (.valueError m) =>
                throw (.valueError (("Invalid AQI value in response: ").data
                  ++ (toString aqi_value).data ++ (". ").data ++ m))
              | .error e => throw e
            | v =>
              throw (.valueError
                (("Expected 'list[0].main.aqi' to be integer, got ").data
                  ++ v.typeName ++ (": ").data ++ v.valStr))
          | v =>
            throw (.typeError (("Expected 'list[0].main' to be dict, got ").data
              ++ v.typeName))
        | v =>
          throw (.typeError (("Expected 'list[0]' to be dict, got ").data
            ++ v.typeName))
    | v =>
      throw (.typeError (("Expected 'list' to be list, got ").data
        ++ v.typeName))
  | v =>
    throw (.valueError (("Expected dict response, got ").data ++ v.typeName))

/-- The function `validate_forecast_response(data)`: checks the non-empty
`list` array and the shape of its first element (string `dt_txt`, numeric
`main.temp`, non-empty `weather` with string `description`/`icon`);
returns the `list` array itself. -/
def validate_forecast_response (data : JValue) :
    Except PyError (List JValue) := do
  match data with
  | .obj fields =>
    let listv ← get_required_key fields (("list").data) []
    match listv with
    | .arr forecast_list =>
      match forecast_list with
      | [] => throw (.valueError ("'list' array is empty").data)
      | first_item :: _ =>
        match first_item with
        | .obj itemf =>
          let dtv ← get_required_key itemf (("dt_txt").data) (("list[0]").data)
          let mainv ← get_required_key itemf (("main").data) (("list[0]").data)
          let weatherv ← get_required_key itemf (("weather").data)
            (("list[0]").data)
          match dtv with
          | .str _ =>
            match mainv with
            | .obj mainf =>
              match alookup mainf (("temp").data) with
              | none =>
                throw (.keyError
                  ("Missing required key: 'list[0].main.temp'").data)
              | some tempv =>
                match tempv.asNum with
                | none =>
                  throw (.valueError
                    (("Expected 'list[0].main.temp' to be number, got ").data
                      ++ tempv.typeName ++ (": ").data ++ tempv.valStr))
                | some _ =>
                  match weatherv with
                  | .arr ws =>
                    match ws with
                    | [] =>
                      throw (.valueError
                        ("'list[0].weather' array is empty").data)
                    | w0 :: _ =>
                      match w0 with
                      | .obj w0f =>
                        check_string_value w0f (("description").data)
                          (("list[0].weather[0]").data)
                        check_string_value w0f (("icon").data)
                          (("list[0].weather[0]").data)
                        pure forecast_list
                      | v =>
                        throw (.typeError
                          (("Expected 'list[0].weather[0]' to be dict, got ").data
                            ++ v.typeName))
                  | v =>
                    throw (.typeError
                      (("Expected 'list[0].weather' to be list, got ").data
                        ++ v.typeName))
            | v =>
              throw (.typeError (("Expected 'list[0].main' to be dict, got ").data
                ++ v.typeName))
          | _ =>
            throw (.valueError
              (("Expected 'list[0].dt_txt' to be string, got ").data
                ++ dtv.typeName ++ (": ").data ++ dtv.valStr))
        | v =>
          throw (.typeError (("Expected 'list[0]' to be dict, got ").data
            ++ v.typeName))
    | v =>
      throw (.typeError (("Expected 'list' to be list, got ").data
        ++ v.typeName))
  | v =>
    throw (.valueError (("Expected dict response, got ").data ++ v.typeName))

/-- First-seen-order deduplication: the fold performed on the `conditions`
list by successive `add_hourly` calls. -/
def firstSeenDedup (l : List Str) : List Str :=
  l.foldl (fun acc c => if c ∈ acc then acc else acc ++ [c]) []

/-- Projection `v[key]` on a dict document, `none` otherwise (used to state
which sub-object a validator returns). -/
def jget (v : JValue) (key : Str) : Option JValue :=
  match v with
  | .obj fields => alookup fields key
  | _ => none

/-- The argument tuple of one `ForecastDay.add_hourly` call. -/
structure HourlyCall where
  time : Str
  temp : ℚ
  condition : Str
  humidity : JValue
  wind : JValue

/-- The hourly record a call appends. -/
def HourlyCall.toEntry (c : HourlyCall) : HourlyEntry :=
  { time := c.time, temp := c.temp, condition := c.condition,
    humidity := c.humidity, wind := c.wind }

/-- Perform a finite sequence of `add_hourly` calls on a day. -/
def applyCalls (d : ForecastDay) (calls : List HourlyCall) : ForecastDay :=
  calls.foldl
    (fun d c => d.add_hourly c.time c.temp c.condition c.humidity c.wind) d

instance : IsTotal ForecastDay (fun a b => a.date ≤ b.date) :=
  ⟨fun a b => le_total a.date b.date⟩

instance : IsTrans ForecastDay (fun a b => a.date ≤ b.date) :=
  ⟨fun _ _ _ h1 h2 => le_trans h1 h2⟩

/-- A well-formed forecast entry (date, integer temperature, description). -/
def mkForecastEntry (dt : Str) (t : Int) (descr : Str) : JValue :=
  .obj [(("dt_txt").data, .str dt),
        (("main").data, .obj [(("temp").data, .int t),
                              (("humidity").data, .int 50)]),
        (("weather").data, .arr [.obj [(("description").data, .str descr),
                                       (("icon").data, .str ("01d").data)]]),
        (("wind").data, .obj [(("speed").data, .float 3)])]

/-- Example entry: 2024-01-01 00:00:00, temp 10. -/
def forecastEntry1 : JValue :=
  mkForecastEntry ("2024-01-01 00:00:00").data 10 ("clear sky").data

/-- Example entry: 2024-01-01 03:00:00, temp 15. -/
def forecastEntry2 : JValue :=
  mkForecastEntry ("2024-01-01 03:00:00").data 15 ("clear sky").data

/-- Example entry: 2024-01-02 00:00:00, temp -2. -/
def forecastEntry3 : JValue :=
  mkForecastEntry ("2024-01-02 00:00:00").data (-2) ("clear sky").data

/-- A well-shaped entry whose `main` object has no `temp` field. -/
def entryMissingTemp : JValue :=
  .obj [(("dt_txt").data, .str ("2024-01-01 00:00:00").data),
        (("main").data, .obj [(("humidity").data, .int 50)]),
        (("weather").data, .arr [.obj [(("description").data,
                                        .str ("broken clouds").data)]]),
        (("wind").data, .obj [(("speed").data, .float 3)])]

/-- Same-day entry whose raw description is capitalized. -/
def lightRainEntry1 : JValue :=
  mkForecastEntry ("2024-01-01 00:00:00").data 5 ("Light Rain").data

/-- Same-day entry whose raw description is lowercase. -/
def lightRainEntry2 : JValue :=
  mkForecastEntry ("2024-01-01 03:00:00").data 6 ("light rain").data

/-- Coordinates document whose `coord.lat` is a string (a wrong-type failure). -/
def coordDocWrongType : JValue :=
  .obj [(("coord").data, .obj [(("lat").data, .str ("x").data),
                               (("lon").data, .int 0)])]

/-- Coordinates document with `lat = 91` (an out-of-range failure). -/
def coordDocOutOfRange : JValue :=
  .obj [(("coord").data, .obj [(("lat").data, .int 91),
                               (("lon").data, .int 0)])]

/-- Coordinates document with `lon = 181` (an out-of-range failure). -/
def coordDocLonOutOfRange : JValue :=
  .obj [(("coord").data, .obj [(("lat").data, .int 0),
                               (("lon").data, .int 181)])]

/-- A valid coordinates document. -/
def coordDocOk : JValue :=
  .obj [(("coord").data, .obj [(("lat").data, .int 45),
                               (("lon").data, .float (-122))])]

/-- Current-weather document whose `weather` array is empty
(an empty-collection failure). -/
def weatherDocEmpty : JValue :=
  .obj [(("main").data, .obj [(("temp").data, .int 20),
                              (("humidity").data, .int 40)]),
        (("weather").data, .arr [])]

/-- A valid current-weather document. -/
def weatherDocOk : JValue :=
  .obj [(("main").data, .obj [(("temp").data, .float 21),
                              (("humidity").data, .int 40)]),
        (("weather").data, .arr [.obj [(("description").data,
                                        .str ("clear sky").data),
                                       (("icon").data, .str ("01d").data)]]),
        (("wind").data, .obj [(("speed").data, .float 5)])]

/-- An air-quality document with the given integer AQI value. -/
def mkAqiDoc (n : Int) : JValue :=
  .obj [(("list").data,
         .arr [.obj [(("main").data, .obj [(("aqi").data, .int n)])]])]

/-- A valid forecast document whose `list` holds one well-formed entry. -/
def forecastDocOk : JValue :=
  .obj [(("list").data, .arr [forecastEntry1])]

/-- C8: aggregating the three well-formed entries with timestamps
2024-01-01 00:00:00 (temp 10), 2024-01-01 03:00:00 (temp 15) and
2024-01-02 00:00:00 (temp -2) yields exactly two `ForecastDay` values, in
the order [2024-01-01, 2024-01-02]: the first with min 10, max 15 and two
hourly records, the second with min = max = -2 and one hourly record. -/
theorem weathermate_c8 :
    process_forecast_data [forecastEntry1, forecastEntry2, forecastEntry3]
        (("metric").data) =
      .ok [⟨("2024-01-01").data,
            [⟨("00:00").data, 10, ("Clear Sky").data, .int 50, .float 3⟩,
             ⟨("03:00").data, 15, ("Clear Sky").data, .int 50, .float 3⟩],
            some 10, some 15, [("Clear Sky").data]⟩,
           ⟨("2024-01-02").data,
            [⟨("00:00").data, -2, ("Clear Sky").data, .int 50, .float 3⟩],
            some (-2), some (-2), [("Clear Sky").data]⟩] := by
  rfl

/-- C1 (counterexample): an entry whose `main` object lacks `temp` is NOT
skipped — `main.get("temp", 0)` defaults to `0`, so the entry contributes a
full hourly record with temperature 0 and sets the day's min/max to 0. -/
theorem weathermate_c1_counterexample :
    process_forecast_data [entryMissingTemp] (("metric").data) =
      .ok [⟨("2024-01-01").data,
            [⟨("00:00").data, 0, ("Broken Clouds").data, .int 50, .float 3⟩],
            some 0, some 0, [("Broken Clouds").data]⟩] := by
  rfl

/-- C3 (counterexample): two same-day entries with raw descriptions
"Light Rain" and "light rain" produce ONE conditions entry, not two:
`process_forecast_data` title-cases the description before `add_hourly`
deduplicates, and both title-case to "Light Rain". -/
theorem weathermate_c3_counterexample :
    process_forecast_data [lightRainEntry1, lightRainEntry2]
        (("metric").data) =
      .ok [⟨("2024-01-01").data,
            [⟨("00:00").data, 5, ("Light Rain").data, .int 50, .float 3⟩,
             ⟨("03:00").data, 6, ("Light Rain").data, .int 50, .float 3⟩],
            some 5, some 6, [("Light Rain").data]⟩] := by
  rfl

/-- C2 (counterexample): `process_forecast_data` does raise on a non-dict
entry (the `AttributeError` from `entry.get` is not in the caught tuple),
and it returns an empty day sequence for the non-empty input `[{}]` (the
empty dict entry is skipped via the `IndexError` on the timestamp split). -/
theorem weathermate_c2_counterexample :
    process_forecast_data [.int 42] (("metric").data) =
      .error (.attributeError ("'int' object has no attribute 'get'").data) ∧
    process_forecast_data [.obj []] (("metric").data) = .ok [] := by
  exact ⟨rfl, rfl⟩

/-- C4 (counterexample): two validation failures of different kinds raise
errors of the SAME type: a wrong-type failure (`coord.lat` a string) and an
out-of-range failure (`lat = 91`) both raise `ValueError`. -/
theorem weathermate_c4_counterexample :
    validate_coordinates_response coordDocWrongType =
      .error (.valueError ("Expected 'coord.lat' to be number, got str: x").data) ∧
    validate_coordinates_response coordDocOutOfRange =
      .error (.valueError ("Latitude out of range: 91").data) := by
  exact ⟨rfl, rfl⟩

/-- C4 (amended): the error kinds map onto Python exception types as follows
(shown on representative failures): a missing field raises `KeyError`, a
wrongly-typed container raises `TypeError`, but a wrongly-typed scalar, an
out-of-range value and an empty required array all raise `ValueError` — so
MissingField (and container type errors) are distinguishable by exception
type, while WrongType-scalar, OutOfRange and EmptyCollection are not. -/
theorem weathermate_c4_amended :
    validate_coordinates_response (.obj []) =
      .error (.keyError ("Missing required key: 'coord'").data) ∧
    validate_coordinates_response (.obj [(("coord").data, .str ("x").data)]) =
      .error (.typeError ("Expected 'coord' to be dict, got str").data) ∧
    validate_coordinates_response coordDocWrongType =
      .error (.valueError ("Expected 'coord.lat' to be number, got str: x").data) ∧
    validate_coordinates_response coordDocOutOfRange =
      .error (.valueError ("Latitude out of range: 91").data) ∧
    validate_current_weather_response weatherDocEmpty =
      .error (.valueError ("'weather' array is empty").data) := by
  exact ⟨rfl, rfl, rfl, rfl, rfl⟩

/-- Helper: `add_hourly` preserves the lower-bound invariant on `min_temp`. -/
theorem add_hourly_min_inv (d : ForecastDay) (t : Str) (q : ℚ) (c : Str)
    (hu w : JValue)
    (h : ∀ e ∈ d.hourly_data, ∃ mn, d.min_temp = some mn ∧ mn ≤ e.temp) :
    ∀ e ∈ (d.add_hourly t q c hu w).hourly_data,
      ∃ mn, (d.add_hourly t q c hu w).min_temp = some mn ∧ mn ≤ e.temp := by
  intro e he
  simp only [ForecastDay.add_hourly, List.mem_append, List.mem_singleton] at he
  rcases he with he | he
  · obtain ⟨mn, hmn, hle⟩ := h e he
    refine ⟨_, rfl, ?_⟩
    simp only [ForecastDay.add_hourly, hmn]
    exact le_trans (min_le_left _ _) hle
  · refine ⟨_, rfl, ?_⟩
    subst he
    simp only [ForecastDay.add_hourly]
    cases hd : d.min_temp with
    | none => simp
    | some m => simp [min_le_right m q]

/-- Helper: `add_hourly` preserves the upper-bound invariant on `max_temp`. -/
theorem add_hourly_max_inv (d : ForecastDay) (t : Str) (q : ℚ) (c : Str)
    (hu w : JValue)
    (h : ∀ e ∈ d.hourly_data, ∃ mx, d.max_temp = some mx ∧ e.temp ≤ mx) :
    ∀ e ∈ (d.add_hourly t q c hu w).hourly_data,
      ∃ mx, (d.add_hourly t q c hu w).max_temp = some mx ∧ e.temp ≤ mx := by
  intro e he
  simp only [ForecastDay.add_hourly, List.mem_append, List.mem_singleton] at he
  rcases he with he | he
  · obtain ⟨mx, hmx, hle⟩ := h e he
    refine ⟨_, rfl, ?_⟩
    simp only [ForecastDay.add_hourly, hmx]
    exact le_trans hle (le_max_left _ _)
  · refine ⟨_, rfl, ?_⟩
    subst he
    simp only [ForecastDay.add_hourly]
    cases hd : d.max_temp with
    | none => simp
    | some m => simp [le_max_right m q]

/-- Helper: the lower-bound invariant survives any sequence of calls. -/
theorem applyCalls_min_inv : ∀ (calls : List HourlyCall) (d : ForecastDay),
    (∀ e ∈ d.hourly_data, ∃ mn, d.min_temp = some mn ∧ mn ≤ e.temp) →
    ∀ e ∈ (applyCalls d calls).hourly_data,
      ∃ mn, (applyCalls d calls).min_temp = some mn ∧ mn ≤ e.temp
  | [], _, h => h
  | c :: cs, d, h =>
    applyCalls_min_inv cs _
      (add_hourly_min_inv d c.time c.temp c.condition c.humidity c.wind h)

/-- Helper: the upper-bound invariant survives any sequence of calls. -/
theorem applyCalls_max_inv : ∀ (calls : List HourlyCall) (d : ForecastDay),
    (∀ e ∈ d.hourly_data, ∃ mx, d.max_temp = some mx ∧ e.temp ≤ mx) →
    ∀ e ∈ (applyCalls d calls).hourly_data,
      ∃ mx, (applyCalls d calls).max_temp = some mx ∧ e.temp ≤ mx
  | [], _, h => h
  | c :: cs, d, h =>
    applyCalls_max_inv cs _
      (add_hourly_max_inv d c.time c.temp c.condition c.humidity c.wind h)

/-- Helper: the hourly records accumulate in call order. -/
theorem applyCalls_hourly_data : ∀ (calls : List HourlyCall) (d : ForecastDay),
    (applyCalls d calls).hourly_data =
      d.hourly_data ++ calls.map HourlyCall.toEntry
  | [], d => by simp [applyCalls]
  | c :: cs, d => by
    have ih := applyCalls_hourly_data cs
      (d.add_hourly c.time c.temp c.condition c.humidity c.wind)
    simp only [applyCalls, List.foldl_cons] at ih ⊢
    rw [ih]
    simp [ForecastDay.add_hourly, HourlyCall.toEntry]

/-- Helper: the conditions list is the first-seen fold of the added
conditions over the starting list. -/
theorem applyCalls_conditions : ∀ (calls : List HourlyCall) (d : ForecastDay),
    (applyCalls d calls).conditions =
      (calls.map HourlyCall.condition).foldl
        (fun acc c => if c ∈ acc then acc else acc ++ [c]) d.conditions
  | [], d => by simp [applyCalls]
  | c :: cs, d => by
    have ih := applyCalls_conditions cs
      (d.add_hourly c.time c.temp c.condition c.humidity c.wind)
    simp only [applyCalls, List.foldl_cons] at ih ⊢
    rw [ih]
    simp [ForecastDay.add_hourly]

/-- Helper: the first-seen fold keeps the accumulator duplicate-free. -/
theorem foldl_dedup_nodup : ∀ (l : List Str) (acc : List Str), acc.Nodup →
    (List.foldl (fun acc c => if c ∈ acc then acc else acc ++ [c]) acc l).Nodup
  | [], _, h => h
  | c :: cs, acc, h => by
    simp only [List.foldl_cons]
    apply foldl_dedup_nodup cs
    by_cases hc : c ∈ acc
    · simpa [hc] using h
    · simp [hc, List.nodup_append, h]

/-- Helper: membership in the first-seen fold. -/
theorem foldl_dedup_mem : ∀ (l : List Str) (acc : List Str) (x : Str),
    (x ∈ List.foldl (fun acc c => if c ∈ acc then acc else acc ++ [c]) acc l)
      ↔ x ∈ acc ∨ x ∈ l
  | [], acc, x => by simp
  | c :: cs, acc, x => by
    simp only [List.foldl_cons]
    rw [foldl_dedup_mem cs]
    by_cases hc : c ∈ acc
    · simp only [hc, if_pos]
      constructor
      · rintro (h | h)
        · exact Or.inl h
        · exact Or.inr (List.mem_cons_of_mem c h)
      · rintro (h | h)
        · exact Or.inl h
        · rcases List.mem_cons.mp h with rfl | h
          · exact Or.inl hc
          · exact Or.inr h
    · simp only [hc, if_neg, not_false_iff, List.mem_append,
        List.mem_singleton, List.mem_cons]
      tauto

/-- C5: starting from a freshly constructed `ForecastDay` and performing any
finite sequence of `add_hourly` calls: the recorded `min_temp` is a lower
bound and `max_temp` an upper bound for every stored hourly temperature;
`hourly_data` holds exactly the records of the calls in call order (not
re-sorted); and `conditions` is the first-seen-order deduplication of the
added condition strings — duplicate-free and containing exactly the added
conditions. -/
theorem weathermate_c5 (date : Str) (calls : List HourlyCall) :
    (∀ e ∈ (applyCalls (ForecastDay.init date) calls).hourly_data,
       ∃ mn, (applyCalls (ForecastDay.init date) calls).min_temp = some mn ∧
         mn ≤ e.temp) ∧
    (∀ e ∈ (applyCalls (ForecastDay.init date) calls).hourly_data,
       ∃ mx, (applyCalls (ForecastDay.init date) calls).max_temp = some mx ∧
         e.temp ≤ mx) ∧
    (applyCalls (ForecastDay.init date) calls).hourly_data =
      calls.map HourlyCall.toEntry ∧
    (applyCalls (ForecastDay.init date) calls).conditions =
      firstSeenDedup (calls.map HourlyCall.condition) ∧
    (applyCalls (ForecastDay.init date) calls).conditions.Nodup ∧
    (∀ c, c ∈ (applyCalls (ForecastDay.init date) calls).conditions ↔
       c ∈ calls.map HourlyCall.condition) := by
  refine ⟨?_, ?_, ?_, ?_, ?_, ?_⟩
  · exact applyCalls_min_inv calls _ (by simp [ForecastDay.init])
  · exact applyCalls_max_inv calls _ (by simp [ForecastDay.init])
  · rw [applyCalls_hourly_data]
    simp [ForecastDay.init]
  · rw [applyCalls_conditions]
    simp [ForecastDay.init, firstSeenDedup]
  · rw [applyCalls_conditions]
    exact foldl_dedup_nodup _ _ (by simp [ForecastDay.init])
  · intro c
    rw [applyCalls_conditions, foldl_dedup_mem]
    simp [ForecastDay.init]

/-- C3 (amended): `add_hourly` appends a condition to the day's conditions
list only if not already present, by case-sensitive exact string match on
the stored strings; but `process_forecast_data` title-cases the raw
description before storing it, and "Light Rain" and "light rain" title-case
to the same string, so that pair yields a single conditions entry (as
`weathermate_c3_counterexample` shows concretely). -/
theorem weathermate_c3_amended (d : ForecastDay) (time : Str) (temp : ℚ)
    (condition : Str) (humidity wind : JValue) :
    ((condition ∈ d.conditions →
        (d.add_hourly time temp condition humidity wind).conditions =
          d.conditions) ∧
     (condition ∉ d.conditions →
        (d.add_hourly time temp condition humidity wind).conditions =
          d.conditions ++ [condition])) ∧
    pyTitle (("Light Rain").data) = pyTitle (("light rain").data) := by
  refine ⟨⟨fun h => ?_, fun h => ?_⟩, rfl⟩
  · simp [ForecastDay.add_hourly, h]
  · simp [ForecastDay.add_hourly, h]

/-- Witness for `weathermate_c3_amended` at a concrete day and condition. -/
theorem weathermate_c3_witness :
    (("Light Rain").data ∉ (ForecastDay.init (("2024-01-01").data)).conditions) ∧
    ((ForecastDay.init (("2024-01-01").data)).add_hourly (("00:00").data) 5
        (("Light Rain").data) (.int 50) (.float 3)).conditions =
      (ForecastDay.init (("2024-01-01").data)).conditions ++
        [("Light Rain").data] := by
  refine ⟨by decide, ?_⟩
  exact (weathermate_c3_amended (ForecastDay.init (("2024-01-01").data))
    (("00:00").data) 5 (("Light Rain").data) (.int 50) (.float 3)).1.2
    (by decide)

/-- Helper: bind on a successful `Except` computation. -/
theorem except_bind_ok {ε α β : Type} (a : α) (f : α → Except ε β) :
    (Except.ok a >>= f : Except ε β) = f a := rfl

/-- Helper: bind on a failed `Except` computation. -/
theorem except_bind_error {ε α β : Type} (e : ε) (f : α → Except ε β) :
    (Except.error e >>= f : Except ε β) = Except.error e := rfl

/-- Helper: `pure` on `Except` is `ok`. -/
theorem except_pure {ε α : Type} (a : α) :
    (pure a : Except ε α) = Except.ok a := rfl

/-- Helper: `throw` on `Except` is `error`. -/
theorem except_throw {ε α : Type} (e : ε) :
    (throw e : Except ε α) = Except.error e := rfl

/-- Helper: the latitude loop iteration succeeds on an in-range number. -/
theorem check_coord_lat_ok (coord : List (Str × JValue)) (latv : JValue)
    (la : ℚ) (hlat : alookup coord (("lat").data) = some latv)
    (hla : latv.asNum = some la) (h1 : -90 ≤ la) (h2 : la ≤ 90) :
    check_coord_value coord (("lat").data) = .ok () := by
  simp only [check_coord_value, get_required_key, hlat, except_bind_ok, hla]
  split_ifs with hA hB
  · exact absurd ⟨h1, h2⟩ hA.2
  · exact absurd hB.1 (by decide)
  · rfl

/-- Helper: the latitude loop iteration raises on an out-of-range number. -/
theorem check_coord_lat_range (coord : List (Str × JValue)) (latv : JValue)
    (la : ℚ) (hlat : alookup coord (("lat").data) = some latv)
    (hla : latv.asNum = some la) (h : ¬(-90 ≤ la ∧ la ≤ 90)) :
    check_coord_value coord (("lat").data) =
      .error (.valueError (("Latitude out of range: ").data ++ latv.valStr)) := by
  simp only [check_coord_value, get_required_key, hlat, except_bind_ok, hla]
  rw [if_pos ⟨by decide, h⟩]
  rfl

/-- Helper: the longitude loop iteration succeeds on an in-range number. -/
theorem check_coord_lon_ok (coord : List (Str × JValue)) (lonv : JValue)
    (lo : ℚ) (hlon : alookup coord (("lon").data) = some lonv)
    (hlo : lonv.asNum = some lo) (h1 : -180 ≤ lo) (h2 : lo ≤ 180) :
    check_coord_value coord (("lon").data) = .ok () := by
  simp only [check_coord_value, get_required_key, hlon, except_bind_ok, hlo]
  split_ifs with hA hB
  · exact absurd hA.1 (by decide)
  · exact absurd ⟨h1, h2⟩ hB.2
  · rfl

/-- Helper: the longitude loop iteration raises on an out-of-range number. -/
theorem check_coord_lon_range (coord : List (Str × JValue)) (lonv : JValue)
    (lo : ℚ) (hlon : alookup coord (("lon").data) = some lonv)
    (hlo : lonv.asNum = some lo) (h : ¬(-180 ≤ lo ∧ lo ≤ 180)) :
    check_coord_value coord (("lon").data) =
      .error (.valueError (("Longitude out of range: ").data ++ lonv.valStr)) := by
  simp only [check_coord_value, get_required_key, hlon, except_bind_ok, hlo]
  split_ifs with hA hB
  · exact absurd hA.1 (by decide)
  · rfl
  · exact absurd (not_not.mp fun hr => hB ⟨trivial, hr⟩) h

/-- C6: for every document whose `coord.lat` and `coord.lon` entries are
numbers: when `lat ∈ [-90, 90]` and `lon ∈ [-180, 180]`,
`validate_coordinates_response` returns the `coord` sub-object (hence those
exact values) unchanged; when `lat` is out of range it raises the
out-of-range `ValueError` for latitude; when `lat` is in range but `lon` is
out of range it raises the out-of-range `ValueError` for longitude. -/
theorem weathermate_c6 (fields coord : List (Str × JValue))
    (latv lonv : JValue) (la lo : ℚ)
    (hc : alookup fields (("coord").data) = some (.obj coord))
    (hlat : alookup coord (("lat").data) = some latv)
    (hlon : alookup coord (("lon").data) = some lonv)
    (hla : latv.asNum = some la) (hlo : lonv.asNum = some lo) :
    ((-90 ≤ la ∧ la ≤ 90) → (-180 ≤ lo ∧ lo ≤ 180) →
      validate_coordinates_response (.obj fields) = .ok (.obj coord)) ∧
    (¬(-90 ≤ la ∧ la ≤ 90) →
      validate_coordinates_response (.obj fields) =
        .error (.valueError (("Latitude out of range: ").data ++ latv.valStr))) ∧
    ((-90 ≤ la ∧ la ≤ 90) → ¬(-180 ≤ lo ∧ lo ≤ 180) →
      validate_coordinates_response (.obj fields) =
        .error (.valueError (("Longitude out of range: ").data ++ lonv.valStr))) := by
  refine ⟨fun hr1 hr2 => ?_, fun hr => ?_, fun hr1 hr2 => ?_⟩
  · simp only [validate_coordinates_response, get_required_key, hc,
      except_bind_ok, check_coord_lat_ok coord latv la hlat hla hr1.1 hr1.2,
      check_coord_lon_ok coord lonv lo hlon hlo hr2.1 hr2.2]
    rfl
  · simp only [validate_coordinates_response, get_required_key, hc,
      except_bind_ok, check_coord_lat_range coord latv la hlat hla hr,
      except_bind_error]
  · simp only [validate_coordinates_response, get_required_key, hc,
      except_bind_ok, check_coord_lat_ok coord latv la hlat hla hr1.1 hr1.2,
      check_coord_lon_range coord lonv lo hlon hlo hr2, except_bind_error]

/-- Witness for `weathermate_c6`: a valid document is returned unchanged,
`lat = 91` raises the latitude out-of-range error, and `lon = 181` raises
the longitude out-of-range error. -/
theorem weathermate_c6_witness :
    validate_coordinates_response coordDocOk =
      .ok (.obj [(("lat").data, .int 45), (("lon").data, .float (-122))]) ∧
    validate_coordinates_response coordDocOutOfRange =
      .error (.valueError ("Latitude out of range: 91").data) ∧
    validate_coordinates_response coordDocLonOutOfRange =
      .error (.valueError ("Longitude out of range: 181").data) := by
  refine ⟨?_, ?_, ?_⟩
  · exact (weathermate_c6
      [(("coord").data, .obj [(("lat").data, .int 45), (("lon").data, .float (-122))])]
      [(("lat").data, .int 45), (("lon").data, .float (-122))]
      (.int 45) (.float (-122)) 45 (-122)
      rfl rfl rfl rfl rfl).1 (by norm_num) (by norm_num)
  · exact (weathermate_c6
      [(("coord").data, .obj [(("lat").data, .int 91), (("lon").data, .int 0)])]
      [(("lat").data, .int 91), (("lon").data, .int 0)]
      (.int 91) (.int 0) 91 0
      rfl rfl rfl rfl rfl).2.1 (by norm_num)
  · exact (weathermate_c6
      [(("coord").data, .obj [(("lat").data, .int 0), (("lon").data, .int 181)])]
      [(("lat").data, .int 0), (("lon").data, .int 181)]
      (.int 0) (.int 181) 0 181
      rfl rfl rfl rfl rfl).2.2 (by norm_num) (by norm_num)

/-- C7: `validate_air_quality_response` raises a `ValueError` for every
integer AQI value outside {1,2,3,4,5} (in particular 6 — rejected, never
clamped), and for each accepted value 1–5 `AQILevel.from_value` yields the
level whose description follows the fixed table 1→Good, 2→Fair,
3→Moderate, 4→Poor, 5→Very Poor. -/
theorem weathermate_c7 (n : Int) (h1 : n ≠ 1) (h2 : n ≠ 2) (h3 : n ≠ 3)
    (h4 : n ≠ 4) (h5 : n ≠ 5) :
    validate_air_quality_response (mkAqiDoc n) =
      .error (.valueError (("Invalid AQI value in response: ").data
        ++ (toString n).data ++ (". ").data
        ++ (("Invalid AQI value: ").data ++ (toString n).data
            ++ (". Must be 1-5.").data))) ∧
    (AQILevel.from_value 1 = .ok .GOOD ∧
      AQILevel.GOOD.description = ("Good").data) ∧
    (AQILevel.from_value 2 = .ok .FAIR ∧
      AQILevel.FAIR.description = ("Fair").data) ∧
    (AQILevel.from_value 3 = .ok .MODERATE ∧
      AQILevel.MODERATE.description = ("Moderate").data) ∧
    (AQILevel.from_value 4 = .ok .POOR ∧
      AQILevel.POOR.description = ("Poor").data) ∧
    (AQILevel.from_value 5 = .ok .VERY_POOR ∧
      AQILevel.VERY_POOR.description = ("Very Poor").data) := by
  refine ⟨?_, ⟨rfl, rfl⟩, ⟨rfl, rfl⟩, ⟨rfl, rfl⟩, ⟨rfl, rfl⟩, ⟨rfl, rfl⟩⟩
  have hb1 : ((AQILevel.GOOD.value_num == n) = false) := by
    simp [AQILevel.value_num]
    omega
  have hb2 : ((AQILevel.FAIR.value_num == n) = false) := by
    simp [AQILevel.value_num]
    omega
  have hb3 : ((AQILevel.MODERATE.value_num == n) = false) := by
    simp [AQILevel.value_num]
    omega
  have hb4 : ((AQILevel.POOR.value_num == n) = false) := by
    simp [AQILevel.value_num]
    omega
  have hb5 : ((AQILevel.VERY_POOR.value_num == n) = false) := by
    simp [AQILevel.value_num]
    omega
  have hfv : AQILevel.from_value n =
      .error (.valueError (("Invalid AQI value: ").data ++ (toString n).data
        ++ (". Must be 1-5.").data)) := by
    simp [AQILevel.from_value, AQILevel.members, List.find?, hb1, hb2, hb3,
      hb4, hb5]
  simp only [validate_air_quality_response, mkAqiDoc, get_required_key,
    alookup, if_pos, except_bind_ok, hfv]
  rfl

/-- Witness for `weathermate_c7` at the concrete AQI value 6. -/
theorem weathermate_c7_witness :
    validate_air_quality_response (mkAqiDoc 6) =
      .error (.valueError
        ("Invalid AQI value in response: 6. Invalid AQI value: 6. Must be 1-5.").data) ∧
    AQILevel.from_value 3 = .ok .MODERATE := by
  refine ⟨?_, rfl⟩
  exact (weathermate_c7 6 (by decide) (by decide) (by decide) (by decide)
    (by decide)).1

/-- Helper: a lookup misses exactly when the key is not among the keys. -/
theorem alookup_none_iff {β : Type} : ∀ (m : List (Str × β)) (k : Str),
    alookup m k = none ↔ k ∉ m.map Prod.fst
  | [], k => ⟨fun _ => by simp, fun _ => rfl⟩
  | (k', v) :: rest, k => by
    simp only [alookup, List.map_cons, List.mem_cons]
    by_cases h : k' = k
    · subst h
      rw [if_pos rfl]
      constructor
      · intro hk
        exact Option.noConfusion hk
      · intro hk
        exact (hk (Or.inl rfl)).elim
    · simp only [if_neg h, alookup_none_iff rest k]
      constructor
      · intro hk
        rintro (rfl | hmem)
        · exact h rfl
        · exact hk hmem
      · intro hk hmem
        exact hk (Or.inr hmem)

/-- Helper: updating a day in place does not change the key sequence. -/
theorem updateDay_map_fst : ∀ (m : List (Str × ForecastDay)) (k : Str)
    (f : ForecastDay → ForecastDay),
    (updateDay m k f).map Prod.fst = m.map Prod.fst
  | [], _, _ => rfl
  | (k', d) :: rest, k, f => by
    simp only [updateDay]
    by_cases h : k' = k
    · simp [h]
    · simp [h, updateDay_map_fst rest k f]

/-- Helper: updating with a date-preserving function keeps every stored day's
date equal to its key. -/
theorem updateDay_dates : ∀ (m : List (Str × ForecastDay)) (k : Str)
    (f : ForecastDay → ForecastDay), (∀ d, (f d).date = d.date) →
    (∀ p ∈ m, (p.2).date = p.1) →
    ∀ p ∈ updateDay m k f, (p.2).date = p.1
  | [], _, _, _, _ => by simp [updateDay]
  | (k', d) :: rest, k, f, hf, hm => by
    simp only [updateDay]
    by_cases h : k' = k
    · subst h
      rw [if_pos rfl]
      intro p hp
      rcases List.mem_cons.mp hp with rfl | hp
      · show (f d).date = k'
        rw [hf]
        exact hm (k', d) (List.mem_cons_self _ _)
      · exact hm p (List.mem_cons_of_mem _ hp)
    · rw [if_neg h]
      intro p hp
      rcases List.mem_cons.mp hp with rfl | hp
      · exact hm (k', d) (List.mem_cons_self _ _)
      · exact updateDay_dates rest k f hf
          (fun q hq => hm q (List.mem_cons_of_mem _ hq)) p hp

/-- Helper: the day-map step preserves key uniqueness and the date-key tie. -/
theorem addEntryToDays_wf (m : List (Str × ForecastDay)) (ex : ExtractedEntry)
    (h1 : (m.map Prod.fst).Nodup) (h2 : ∀ p ∈ m, (p.2).date = p.1) :
    ((addEntryToDays m ex).map Prod.fst).Nodup ∧
      ∀ p ∈ addEntryToDays m ex, (p.2).date = p.1 := by
  unfold addEntryToDays
  have hf : ∀ d : ForecastDay,
      (d.add_hourly ex.time ex.temp ex.condition ex.humidity ex.wind_speed).date
        = d.date := fun _ => rfl
  by_cases hs : (alookup m ex.date).isSome
  · simp only [hs, if_pos]
    exact ⟨by rw [updateDay_map_fst]; exact h1, updateDay_dates _ _ _ hf h2⟩
  · simp only [hs, Bool.false_eq_true, if_neg, not_false_iff]
    have hnotin : ex.date ∉ m.map Prod.fst := by
      rw [← alookup_none_iff]
      cases ha : alookup m ex.date with
      | none => rfl
      | some d => rw [ha] at hs; simp at hs
    have h1' : ((m ++ [(ex.date, ForecastDay.init ex.date)]).map Prod.fst).Nodup := by
      simp [List.nodup_append, h1, hnotin]
    have h2' : ∀ p ∈ m ++ [(ex.date, ForecastDay.init ex.date)],
        (p.2).date = p.1 := by
      intro p hp
      rcases List.mem_append.mp hp with hp | hp
      · exact h2 p hp
      · rcases List.mem_singleton.mp hp with rfl
        rfl
    exact ⟨by rw [updateDay_map_fst]; exact h1', updateDay_dates _ _ _ hf h2'⟩

/-- Helper: the entry loop preserves key uniqueness and the date-key tie. -/
theorem processEntries_wf : ∀ (l : List JValue) (m res : List (Str × ForecastDay)),
    (m.map Prod.fst).Nodup → (∀ p ∈ m, (p.2).date = p.1) →
    processEntries l m = .ok res →
    (res.map Prod.fst).Nodup ∧ ∀ p ∈ res, (p.2).date = p.1
  | [], m, res, h1, h2, h => by
    simp only [processEntries, Except.ok.injEq] at h
    subst h
    exact ⟨h1, h2⟩
  | e :: rest, m, res, h1, h2, h => by
    simp only [processEntries] at h
    cases hx : extract_entry e with
    | ok ex =>
      simp only [hx] at h
      obtain ⟨h1', h2'⟩ := addEntryToDays_wf m ex h1 h2
      exact processEntries_wf rest _ res h1' h2' h
    | error err =>
      simp only [hx] at h
      by_cases hc : err.caught_by_skip
      · rw [if_pos hc] at h
        exact processEntries_wf rest m res h1 h2 h
      · rw [if_neg hc] at h
        cases h

/-- Helper: under the date-key tie, the dates of the stored days are the keys. -/
theorem map_snd_date : ∀ (m : List (Str × ForecastDay)),
    (∀ p ∈ m, (p.2).date = p.1) →
    (m.map Prod.snd).map ForecastDay.date = m.map Prod.fst
  | [], _ => rfl
  | p :: rest, h => by
    simp only [List.map_cons, List.cons.injEq]
    exact ⟨h p (by simp),
      map_snd_date rest (fun q hq => h q (List.mem_cons_of_mem _ hq))⟩

/-- C9: whenever `process_forecast_data` returns a day sequence, the dates of
the returned days are in strictly ascending lexicographic order, and each
date appears at most once. -/
theorem weathermate_c9 (input : List JValue) (units : Str)
    (days : List ForecastDay)
    (h : process_forecast_data input units = .ok days) :
    (days.map ForecastDay.date).Pairwise (fun a b => a < b) ∧
      (days.map ForecastDay.date).Nodup := by
  unfold process_forecast_data at h
  cases hp : processEntries input [] with
  | error e =>
    rw [hp] at h
    simp [Except.map] at h
  | ok m =>
    rw [hp] at h
    simp only [Except.map, Except.ok.injEq] at h
    obtain ⟨hnd, hdates⟩ := processEntries_wf input [] m (by simp) (by simp) hp
    have hsorted :
        List.Sorted (fun a b : ForecastDay => a.date ≤ b.date)
          (List.insertionSort (fun a b => a.date ≤ b.date) (m.map Prod.snd)) :=
      List.sorted_insertionSort _ (m.map Prod.snd)
    have hperm :
        (List.insertionSort (fun a b : ForecastDay => a.date ≤ b.date)
            (m.map Prod.snd)).Perm (m.map Prod.snd) :=
      List.perm_insertionSort _ (m.map Prod.snd)
    have hvals : (m.map Prod.snd).map ForecastDay.date = m.map Prod.fst :=
      map_snd_date m hdates
    have hnd_vals : ((m.map Prod.snd).map ForecastDay.date).Nodup := by
      rw [hvals]; exact hnd
    have hnd_days :
        ((List.insertionSort (fun a b : ForecastDay => a.date ≤ b.date)
            (m.map Prod.snd)).map ForecastDay.date).Nodup :=
      ((hperm.map ForecastDay.date).nodup_iff).mpr hnd_vals
    have hpw_le :
        ((List.insertionSort (fun a b : ForecastDay => a.date ≤ b.date)
            (m.map Prod.snd)).map ForecastDay.date).Pairwise
          (fun a b => a ≤ b) := by
      rw [List.pairwise_map]
      exact hsorted
    subst h
    refine ⟨?_, hnd_days⟩
    exact (hpw_le.and hnd_days).imp fun hab => lt_of_le_of_ne hab.1 hab.2

/-- Witness for `weathermate_c9` at a concrete one-entry input. -/
theorem weathermate_c9_witness :
    (([(⟨("2024-01-02").data,
        [⟨("00:00").data, -2, ("Clear Sky").data, .int 50, .float 3⟩],
        some (-2), some (-2), [("Clear Sky").data]⟩ : ForecastDay)]).map
          ForecastDay.date).Pairwise (fun a b => a < b) ∧
    (([(⟨("2024-01-02").data,
        [⟨("00:00").data, -2, ("Clear Sky").data, .int 50, .float 3⟩],
        some (-2), some (-2), [("Clear Sky").data]⟩ : ForecastDay)]).map
          ForecastDay.date).Nodup :=
  weathermate_c9 [forecastEntry3] (("metric").data) _ rfl

/-- Helper: when the entry loop raises, the exception is never one of the
caught-and-skipped classes. -/
theorem processEntries_error_uncaught : ∀ (l : List JValue)
    (m : List (Str × ForecastDay)) (err : PyError),
    processEntries l m = .error err → err.caught_by_skip = false
  | [], m, err, h => by simp [processEntries] at h
  | e :: rest, m, err, h => by
    simp only [processEntries] at h
    cases hx : extract_entry e with
    | ok ex =>
      simp only [hx] at h
      exact processEntries_error_uncaught rest _ err h
    | error e' =>
      simp only [hx] at h
      by_cases hc : e'.caught_by_skip
      · rw [if_pos hc] at h
        exact processEntries_error_uncaught rest m err h
      · rw [if_neg hc] at h
        cases h
        exact Bool.eq_false_iff.mpr hc

/-- Helper: an in-place update of a non-empty day map is non-empty. -/
theorem updateDay_ne_nil (m : List (Str × ForecastDay)) (k : Str)
    (f : ForecastDay → ForecastDay) (hm : m ≠ []) : updateDay m k f ≠ [] := by
  intro h
  have hfst := updateDay_map_fst m k f
  rw [h] at hfst
  exact hm (List.map_eq_nil_iff.mp hfst.symm)

/-- Helper: adding an extracted entry leaves a non-empty day map. -/
theorem addEntryToDays_ne_nil (m : List (Str × ForecastDay))
    (ex : ExtractedEntry) : addEntryToDays m ex ≠ [] := by
  unfold addEntryToDays
  by_cases hs : (alookup m ex.date).isSome
  · rw [if_pos hs]
    apply updateDay_ne_nil
    intro hm
    subst hm
    simp [alookup] at hs
  · rw [if_neg hs]
    apply updateDay_ne_nil
    simp

/-- Helper: the entry loop yields an empty day map exactly when it started
empty and every entry was skipped. -/
theorem processEntries_ok_nil : ∀ (l : List JValue)
    (m res : List (Str × ForecastDay)), processEntries l m = .ok res →
    (res = [] ↔ m = [] ∧ l.all entry_skipped = true)
  | [], m, res, h => by
    simp only [processEntries, Except.ok.injEq] at h
    subst h
    simp
  | e :: rest, m, res, h => by
    simp only [processEntries] at h
    cases hx : extract_entry e with
    | ok ex =>
      simp only [hx] at h
      have ih := processEntries_ok_nil rest _ res h
      have hne := addEntryToDays_ne_nil m ex
      have hskip : entry_skipped e = false := by simp [entry_skipped, hx]
      constructor
      · intro hres
        exact absurd (ih.mp hres).1 hne
      · rintro ⟨hm, hall⟩
        simp [List.all_cons, hskip] at hall
    | error err =>
      simp only [hx] at h
      by_cases hc : err.caught_by_skip
      · rw [if_pos hc] at h
        have ih := processEntries_ok_nil rest m res h
        have hskip : entry_skipped e = true := by simp [entry_skipped, hx, hc]
        rw [ih]
        simp [List.all_cons, hskip]
      · rw [if_neg hc] at h
        cases h

/-- C2 (amended): `process_forecast_data` never raises one of the caught
exception classes (`KeyError`/`IndexError`/`ValueError` from a malformed
entry are skipped, not propagated) — though it can raise
`AttributeError`/`TypeError` on entries that are not dicts or carry
wrongly-typed sub-values, as `weathermate_c2_counterexample` shows — and a
returned day sequence is empty exactly when every input entry was skipped
(in particular when the input is empty). -/
theorem weathermate_c2_amended (input : List JValue) (units : Str) :
    (∀ err, process_forecast_data input units = .error err →
      err.caught_by_skip = false) ∧
    (∀ days, process_forecast_data input units = .ok days →
      (days = [] ↔ input.all entry_skipped = true)) := by
  constructor
  · intro err h
    unfold process_forecast_data at h
    cases hp : processEntries input [] with
    | error e =>
      rw [hp] at h
      simp only [Except.map, Except.error.injEq] at h
      subst h
      exact processEntries_error_uncaught input [] e hp
    | ok m =>
      rw [hp] at h
      simp [Except.map] at h
  · intro days h
    unfold process_forecast_data at h
    cases hp : processEntries input [] with
    | error e =>
      rw [hp] at h
      simp [Except.map] at h
    | ok m =>
      rw [hp] at h
      simp only [Except.map, Except.ok.injEq] at h
      have ih := processEntries_ok_nil input [] m hp
      subst h
      constructor
      · intro hd
        have hperm := List.perm_insertionSort
          (fun a b : ForecastDay => a.date ≤ b.date) (m.map Prod.snd)
        rw [hd] at hperm
        have hm : m = [] :=
          List.map_eq_nil_iff.mp (hperm.symm.eq_nil)
        exact (ih.mp hm).2
      · intro hall
        have hm : m = [] := ih.mpr ⟨rfl, hall⟩
        subst hm
        rfl

/-- Witness for `weathermate_c2_amended`: on the input `[{}]` the single
entry is skipped and the returned day sequence is empty. -/
theorem weathermate_c2_witness :
    (([] : List ForecastDay) = [] ↔
      ([JValue.obj []]).all entry_skipped = true) :=
  (weathermate_c2_amended [JValue.obj []] (("metric").data)).2 [] rfl

/-- C1 (amended): an entry whose `main` object lacks the `temp` field is NOT
skipped when the rest of its extraction succeeds: `main.get("temp", 0)`
substitutes the default `0`, and the entry contributes an hourly record
with temperature 0 that participates in the day's min/max (shown here on a
singleton input; `weathermate_c1_counterexample` shows the full concrete
output). -/
theorem weathermate_c1_amended (entry : JValue)
    (fields mainf : List (Str × JValue)) (ex : ExtractedEntry) (units : Str)
    (hE : entry = .obj fields)
    (hM : alookup fields (("main").data) = some (.obj mainf))
    (hT : alookup mainf (("temp").data) = none)
    (hX : extract_entry entry = .ok ex) :
    ex.temp = 0 ∧
    process_forecast_data [entry] units =
      .ok [(ForecastDay.init ex.date).add_hourly ex.time 0 ex.condition
            ex.humidity ex.wind_speed] := by
  subst hE
  have htemp : ex.temp = 0 := by
    simp only [extract_entry, pyGet, hM, hT, except_bind_ok,
      except_bind_error, Option.getD_some, Option.getD_none,
      JValue.asNum] at hX
    cases hdt : (alookup fields (("dt_txt").data)).getD (JValue.str []) with
    | str s =>
      simp only [hdt, JValue.asStr, except_bind_ok] at hX
      cases hsp : splitSpace s with
      | nil => simp only [hsp] at hX; cases hX
      | cons a tl =>
        cases tl with
        | nil => simp only [hsp] at hX; cases hX
        | cons t rest =>
          simp only [hsp] at hX
          cases hw : pyIndex0 ((alookup fields
              (("weather").data)).getD (JValue.arr [JValue.obj []])) with
          | error e => simp only [hw, except_bind_error] at hX; cases hX
          | ok weather =>
            simp only [hw, except_bind_ok] at hX
            cases weather with
            | obj wf =>
              cases hwind : (alookup fields
                  (("wind").data)).getD (JValue.obj []) with
              | obj windf =>
                simp only [hwind] at hX
                cases hcv : (alookup wf (("description").data)).getD
                    (JValue.str ("Unknown").data) with
                | str s2 =>
                  simp only [hcv, except_bind_ok] at hX
                  cases hX
                  simp
                | null => simp only [hcv, except_bind_error] at hX; cases hX
                | bool b => simp only [hcv, except_bind_error] at hX; cases hX
                | int n => simp only [hcv, except_bind_error] at hX; cases hX
                | float q => simp only [hcv, except_bind_error] at hX; cases hX
                | arr xs => simp only [hcv, except_bind_error] at hX; cases hX
                | obj f3 => simp only [hcv, except_bind_error] at hX; cases hX
              | null => simp only [hwind, except_bind_error] at hX; cases hX
              | bool b => simp only [hwind, except_bind_error] at hX; cases hX
              | int n => simp only [hwind, except_bind_error] at hX; cases hX
              | float q => simp only [hwind, except_bind_error] at hX; cases hX
              | str s2 => simp only [hwind, except_bind_error] at hX; cases hX
              | arr xs => simp only [hwind, except_bind_error] at hX; cases hX
            | null => simp only [except_bind_error] at hX; cases hX
            | bool b => simp only [except_bind_error] at hX; cases hX
            | int n => simp only [except_bind_error] at hX; cases hX
            | float q => simp only [except_bind_error] at hX; cases hX
            | str s2 => simp only [except_bind_error] at hX; cases hX
            | arr xs => simp only [except_bind_error] at hX; cases hX
    | null => simp only [hdt, JValue.asStr, except_bind_error] at hX; cases hX
    | bool b => simp only [hdt, JValue.asStr, except_bind_error] at hX; cases hX
    | int n => simp only [hdt, JValue.asStr, except_bind_error] at hX; cases hX
    | float q => simp only [hdt, JValue.asStr, except_bind_error] at hX; cases hX
    | arr xs => simp only [hdt, JValue.asStr, except_bind_error] at hX; cases hX
    | obj f2 => simp only [hdt, JValue.asStr, except_bind_error] at hX; cases hX
  refine ⟨htemp, ?_⟩
  simp only [process_forecast_data, processEntries, hX, addEntryToDays,
    alookup, Option.isSome_none, Bool.false_eq_true, if_neg, not_false_iff,
    List.nil_append, updateDay, if_pos, Except.map, List.map_cons,
    List.map_nil, List.insertionSort, List.orderedInsert, htemp]

/-- Witness for `weathermate_c1_amended` at a concrete entry with a missing
`main.temp` field. -/
theorem weathermate_c1_witness :
    process_forecast_data [entryMissingTemp] (("metric").data) =
      .ok [(ForecastDay.init (("2024-01-01").data)).add_hourly
            (("00:00").data) 0 (("Broken Clouds").data) (.int 50)
            (.float 3)] :=
  (weathermate_c1_amended entryMissingTemp
    [(("dt_txt").data, .str ("2024-01-01 00:00:00").data),
     (("main").data, .obj [(("humidity").data, .int 50)]),
     (("weather").data, .arr [.obj [(("description").data,
                                     .str ("broken clouds").data)]]),
     (("wind").data, .obj [(("speed").data, .float 3)])]
    [(("humidity").data, .int 50)]
    ⟨("2024-01-01").data, ("00:00").data, 0, ("Broken Clouds").data,
     .int 50, .float 3⟩
    (("metric").data) rfl rfl rfl rfl).2

/-- C10: on success each validator returns the original document or its
designated sub-object — `validate_coordinates_response` returns the `coord`
sub-object, `validate_forecast_response` returns the `list` sub-array, and
`validate_current_weather_response` / `validate_air_quality_response`
return the whole document.  No validator mutates the document: the
embedding is pure because the source only reads the document (every access
is `[]`/`.get`/`isinstance`), so the input is returned as-is. -/
theorem weathermate_c10 (data : JValue) :
    (∀ r, validate_coordinates_response data = .ok r →
      jget data (("coord").data) = some r) ∧
    (∀ r, validate_current_weather_response data = .ok r → r = data) ∧
    (∀ r, validate_air_quality_response data = .ok r → r = data) ∧
    (∀ lst, validate_forecast_response data = .ok lst →
      jget data (("list").data) = some (.arr lst)) := by
  cases data with
  | obj fields =>
    refine ⟨?_, ?_, ?_, ?_⟩
    · -- coordinates
      intro r h
      simp only [validate_coordinates_response, get_required_key] at h
      cases hk : alookup fields (("coord").data) with
      | none => simp only [hk, except_bind_error] at h; exact Except.noConfusion h
      | some v =>
        simp only [hk, except_bind_ok] at h
        cases v with
        | obj coord =>
          cases hc1 : check_coord_value coord (("lat").data) with
          | error e => simp only [hc1, except_bind_error] at h; exact Except.noConfusion h
          | ok u =>
            simp only [hc1, except_bind_ok] at h
            cases hc2 : check_coord_value coord (("lon").data) with
            | error e => simp only [hc2, except_bind_error] at h; exact Except.noConfusion h
            | ok u2 =>
              simp only [hc2, except_bind_ok, except_pure,
                Except.ok.injEq] at h
              subst h
              simp [jget, hk]
        | null => exact Except.noConfusion h
        | bool b => exact Except.noConfusion h
        | int n => exact Except.noConfusion h
        | float q => exact Except.noConfusion h
        | str s => exact Except.noConfusion h
        | arr xs => exact Except.noConfusion h
    · -- current weather
      intro r h
      simp only [validate_current_weather_response, get_required_key] at h
      cases hk : alookup fields (("main").data) with
      | none => simp only [hk, except_bind_error] at h; exact Except.noConfusion h
      | some v =>
        simp only [hk, except_bind_ok] at h
        cases v with
        | obj mainf =>
          cases hc1 : check_number_value mainf (("temp").data) (("main").data) with
          | error e => simp only [hc1, except_bind_error] at h; exact Except.noConfusion h
          | ok u =>
            simp only [hc1, except_bind_ok] at h
            cases hc2 : check_number_value mainf (("humidity").data) (("main").data) with
            | error e => simp only [hc2, except_bind_error] at h; exact Except.noConfusion h
            | ok u2 =>
              simp only [hc2, except_bind_ok] at h
              cases hw : alookup fields (("weather").data) with
              | none => simp only [hw, except_bind_error] at h; exact Except.noConfusion h
              | some wv =>
                simp only [hw, except_bind_ok] at h
                cases wv with
                | arr ws =>
                  cases ws with
                  | nil => exact Except.noConfusion h
                  | cons w0 wrest =>
                    cases w0 with
                    | obj w0f =>
                      cases hc3 : check_string_value w0f (("description").data) (("weather[0]").data) with
                      | error e => simp only [hc3, except_bind_error] at h; exact Except.noConfusion h
                      | ok u3 =>
                        simp only [hc3, except_bind_ok] at h
                        cases hc4 : check_string_value w0f (("icon").data) (("weather[0]").data) with
                        | error e => simp only [hc4, except_bind_error] at h; exact Except.noConfusion h
                        | ok u4 =>
                          simp only [hc4, except_bind_ok] at h
                          cases hwind : alookup fields (("wind").data) with
                          | none => simp only [hwind, except_bind_error] at h; exact Except.noConfusion h
                          | some windv =>
                            simp only [hwind, except_bind_ok] at h
                            cases windv with
                            | obj windf =>
                              cases hc5 : check_number_value windf (("speed").data) (("wind").data) with
                              | error e => simp only [hc5, except_bind_error] at h; exact Except.noConfusion h
                              | ok u5 =>
                                simp only [hc5, except_bind_ok, except_pure,
                                  Except.ok.injEq] at h
                                exact h.symm
                            | null => exact Except.noConfusion h
                            | bool b => exact Except.noConfusion h
                            | int n => exact Except.noConfusion h
                            | float q => exact Except.noConfusion h
                            | str s => exact Except.noConfusion h
                            | arr xs => exact Except.noConfusion h
                    | null => exact Except.noConfusion h
                    | bool b => exact Except.noConfusion h
                    | int n => exact Except.noConfusion h
                    | float q => exact Except.noConfusion h
                    | str s => exact Except.noConfusion h
                    | arr xs => exact Except.noConfusion h
                | null => exact Except.noConfusion h
                | bool b => exact Except.noConfusion h
                | int n => exact Except.noConfusion h
                | float q => exact Except.noConfusion h
                | str s => exact Except.noConfusion h
                | obj f2 => exact Except.noConfusion h
        | null => exact Except.noConfusion h
        | bool b => exact Except.noConfusion h
        | int n => exact Except.noConfusion h
        | float q => exact Except.noConfusion h
        | str s => exact Except.noConfusion h
        | arr xs => exact Except.noConfusion h
    · -- air quality
      intro r h
      simp only [validate_air_quality_response, get_required_key] at h
      cases hk : alookup fields (("list").data) with
      | none => simp only [hk, except_bind_error] at h; exact Except.noConfusion h
      | some v =>
        simp only [hk, except_bind_ok] at h
        cases v with
        | arr items =>
          cases items with
          | nil => exact Except.noConfusion h
          | cons item0 irest =>
            cases item0 with
            | obj item0f =>
              cases hm : alookup item0f (("main").data) with
              | none => simp only [hm, except_bind_error] at h; exact Except.noConfusion h
              | some mv =>
                simp only [hm, except_bind_ok] at h
                cases mv with
                | obj mainf =>
                  cases ha : alookup mainf (("aqi").data) with
                  | none => simp only [ha, except_bind_error] at h; exact Except.noConfusion h
                  | some av =>
                    simp only [ha, except_bind_ok] at h
                    cases av with
                    | int n =>
                      cases hfv : AQILevel.from_value n with
                      | ok level =>
                        simp only [hfv, except_pure, Except.ok.injEq] at h
                        exact h.symm
                      | error e =>
                        cases e with
                        | keyError m => simp only [hfv] at h; exact Except.noConfusion h
                        | indexError m => simp only [hfv] at h; exact Except.noConfusion h
                        | typeError m => simp only [hfv] at h; exact Except.noConfusion h
                        | valueError m => simp only [hfv] at h; exact Except.noConfusion h
                        | attributeError m => simp only [hfv] at h; exact Except.noConfusion h
                    | null => exact Except.noConfusion h
                    | bool b => exact Except.noConfusion h
                    | float q => exact Except.noConfusion h
                    | str s => exact Except.noConfusion h
                    | arr xs => exact Except.noConfusion h
                    | obj f2 => exact Except.noConfusion h
                | null => exact Except.noConfusion h
                | bool b => exact Except.noConfusion h
                | int n => exact Except.noConfusion h
                | float q => exact Except.noConfusion h
                | str s => exact Except.noConfusion h
                | arr xs => exact Except.noConfusion h
            | null => exact Except.noConfusion h
            | bool b => exact Except.noConfusion h
            | int n => exact Except.noConfusion h
            | float q => exact Except.noConfusion h
            | str s => exact Except.noConfusion h
            | arr xs => exact Except.noConfusion h
        | null => exact Except.noConfusion h
        | bool b => exact Except.noConfusion h
        | int n => exact Except.noConfusion h
        | float q => exact Except.noConfusion h
        | str s => exact Except.noConfusion h
        | obj f2 => exact Except.noConfusion h
    · -- forecast
      intro lst h
      simp only [validate_forecast_response, get_required_key] at h
      cases hk : alookup fields (("list").data) with
      | none => simp only [hk, except_bind_error] at h; exact Except.noConfusion h
      | some v =>
        simp only [hk, except_bind_ok] at h
        cases v with
        | arr forecast_list =>
          cases forecast_list with
          | nil => exact Except.noConfusion h
          | cons first_item frest =>
            cases first_item with
            | obj itemf =>
              cases hdt : alookup itemf (("dt_txt").data) with
              | none => simp only [hdt, except_bind_error] at h; exact Except.noConfusion h
              | some dtv =>
                simp only [hdt, except_bind_ok] at h
                cases hm : alookup itemf (("main").data) with
                | none => simp only [hm, except_bind_error] at h; exact Except.noConfusion h
                | some mv =>
                  simp only [hm, except_bind_ok] at h
                  cases hw : alookup itemf (("weather").data) with
                  | none => simp only [hw, except_bind_error] at h; exact Except.noConfusion h
                  | some wv =>
                    simp only [hw, except_bind_ok] at h
                    cases dtv with
                    | str sdt =>
                      cases mv with
                      | obj mainf =>
                        cases ht : alookup mainf (("temp").data) with
                        | none => simp only [ht, except_bind_error] at h; exact Except.noConfusion h
                        | some tv =>
                          simp only [ht] at h
                          cases htn : tv.asNum with
                          | none => simp only [htn, except_bind_error] at h; exact Except.noConfusion h
                          | some q =>
                            simp only [htn] at h
                            cases wv with
                            | arr ws =>
                              cases ws with
                              | nil => exact Except.noConfusion h
                              | cons w0 wrest =>
                                cases w0 with
                                | obj w0f =>
                                  cases hc3 : check_string_value w0f (("description").data) (("list[0].weather[0]").data) with
                                  | error e => simp only [hc3, except_bind_error] at h; exact Except.noConfusion h
                                  | ok u3 =>
                                    simp only [hc3, except_bind_ok] at h
                                    cases hc4 : check_string_value w0f (("icon").data) (("list[0].weather[0]").data) with
                                    | error e => simp only [hc4, except_bind_error] at h; exact Except.noConfusion h
                                    | ok u4 =>
                                      simp only [hc4, except_bind_ok, except_pure,
                                        Except.ok.injEq] at h
                                      subst h
                                      simp [jget, hk]
                                | null => exact Except.noConfusion h
                                | bool b => exact Except.noConfusion h
                                | int n => exact Except.noConfusion h
                                | float q2 => exact Except.noConfusion h
                                | str s => exact Except.noConfusion h
                                | arr xs => exact Except.noConfusion h
                            | null => exact Except.noConfusion h
                            | bool b => exact Except.noConfusion h
                            | int n => exact Except.noConfusion h
                            | float q2 => exact Except.noConfusion h
                            | str s => exact Except.noConfusion h
                            | obj f2 => exact Except.noConfusion h
                      | null => exact Except.noConfusion h
                      | bool b => exact Except.noConfusion h
                      | int n => exact Except.noConfusion h
                      | float q2 => exact Except.noConfusion h
                      | str s => exact Except.noConfusion h
                      | arr xs => exact Except.noConfusion h
                    | null => exact Except.noConfusion h
                    | bool b => exact Except.noConfusion h
                    | int n => exact Except.noConfusion h
                    | float q2 => exact Except.noConfusion h
                    | arr xs => exact Except.noConfusion h
                    | obj f2 => exact Except.noConfusion h
            | null => exact Except.noConfusion h
            | bool b => exact Except.noConfusion h
            | int n => exact Except.noConfusion h
            | float q2 => exact Except.noConfusion h
            | str s => exact Except.noConfusion h
            | arr xs => exact Except.noConfusion h
        | null => exact Except.noConfusion h
        | bool b => exact Except.noConfusion h
        | int n => exact Except.noConfusion h
        | float q2 => exact Except.noConfusion h
        | str s => exact Except.noConfusion h
        | obj f2 => exact Except.noConfusion h
  | null =>
    exact ⟨fun r h => by simp [validate_coordinates_response] at h,
      fun r h => by simp [validate_current_weather_response] at h,
      fun r h => by simp [validate_air_quality_response] at h,
      fun l h => by simp [validate_forecast_response] at h⟩
  | bool b =>
    exact ⟨fun r h => by simp [validate_coordinates_response] at h,
      fun r h => by simp [validate_current_weather_response] at h,
      fun r h => by simp [validate_air_quality_response] at h,
      fun l h => by simp [validate_forecast_response] at h⟩
  | int n =>
    exact ⟨fun r h => by simp [validate_coordinates_response] at h,
      fun r h => by simp [validate_current_weather_response] at h,
      fun r h => by simp [validate_air_quality_response] at h,
      fun l h => by simp [validate_forecast_response] at h⟩
  | float q =>
    exact ⟨fun r h => by simp [validate_coordinates_response] at h,
      fun r h => by simp [validate_current_weather_response] at h,
      fun r h => by simp [validate_air_quality_response] at h,
      fun l h => by simp [validate_forecast_response] at h⟩
  | str s =>
    exact ⟨fun r h => by simp [validate_coordinates_response] at h,
      fun r h => by simp [validate_current_weather_response] at h,
      fun r h => by simp [validate_air_quality_response] at h,
      fun l h => by simp [validate_forecast_response] at h⟩
  | arr xs =>
    exact ⟨fun r h => by simp [validate_coordinates_response] at h,
      fun r h => by simp [validate_current_weather_response] at h,
      fun r h => by simp [validate_air_quality_response] at h,
      fun l h => by simp [validate_forecast_response] at h⟩

/-- Witness for `weathermate_c10` on concrete valid documents of all four
response kinds. -/
theorem weathermate_c10_witness :
    jget coordDocOk (("coord").data) =
      some (.obj [(("lat").data, .int 45), (("lon").data, .float (-122))]) ∧
    weatherDocOk = weatherDocOk ∧
    mkAqiDoc 2 = mkAqiDoc 2 ∧
    jget forecastDocOk (("list").data) = some (.arr [forecastEntry1]) := by
  refine ⟨?_, ?_, ?_, ?_⟩
  · exact (weathermate_c10 coordDocOk).1 _ rfl
  · exact (weathermate_c10 weatherDocOk).2.1 _ rfl
  · exact (weathermate_c10 (mkAqiDoc 2)).2.2.1 _ rfl
  · exact (weathermate_c10 forecastDocOk).2.2.2 _ rfl
